import Mathlib

/-!
Shallow embedding of the CampaignAI email campaign pipeline
(src/backend/email_sender.py and src/backend/email_sender_sendgrid.py).

External effects are modelled by oracle structures (the Groq generator, the
SMTP session, the SendGrid client) and by an `Env` record standing for the
process environment as read through os.getenv.  Each runner returns, besides
the Python function result (normal return or raised exception), the trace of
external actions it attempted, so that claims about what was or was not
attempted are statable.
-/

/-- Recipient model: EmailRecipient in both source files. -/
structure EmailRecipient where
  name : String
  email : String
  personal_description : String
deriving DecidableEq

/-- Campaign request model: EmailCampaignRequest in both source files. -/
structure EmailCampaignRequest where
  company_name : String
  campaign_description : String
  recipients : List EmailRecipient
  sender_name : Option String
  email_subject : Option String
deriving DecidableEq

/-- Per-recipient delivery record: EmailDeliveryStatus in both source files. -/
structure EmailDeliveryStatus where
  recipient_name : String
  recipient_email : String
  status : String
  error_message : Option String
  email_content : Option String
deriving DecidableEq

/-- The campaign_summary dict built by both runners.  The success_rate float is
modelled as an exact rational.  The optional warning key appears only in the
empty-recipients response; the optional email_provider key only in the
SendGrid non-empty response. -/
structure CampaignSummary where
  company_name : String
  campaign_description : String
  total_recipients : Nat
  successful_sends : Nat
  failed_sends : Nat
  success_rate : ℚ
  sender_name : String
  sender_email : String
  warning : Option String
  email_provider : Option String
deriving DecidableEq

/-- Campaign response model: EmailCampaignResponse (timestamp omitted). -/
structure EmailCampaignResponse where
  campaign_summary : CampaignSummary
  delivery_results : List EmailDeliveryStatus
  execution_status : String
deriving DecidableEq

/-- Exceptions a runner can raise: ValueError for configuration problems,
plain Exception for the wrapped SMTP connection errors. -/
inductive CampaignException where
  | valueError (msg : String)
  | exception (msg : String)
deriving DecidableEq

/-- Process environment as seen through os.getenv: none means the variable is
unset, some s means it is set to s (possibly the empty string). -/
structure Env where
  sender_email : Option String
  sender_password : Option String
  groq_api_key : Option String
  sender_name_env : Option String
  sendgrid_api_key : Option String
deriving DecidableEq

/-- Python truthiness of an optional string: None and the empty string are
falsy, every other string is truthy. -/
def truthyOpt : Option String → Bool
  | none => false
  | some s => !s.isEmpty

/-- Python `a or b` where a is an optional string and b a string: returns a's
value when truthy, otherwise b. -/
def pyOrStr (a : Option String) (b : String) : String :=
  match a with
  | some s => if s.isEmpty then b else s
  | none => b

/-- os.getenv with a default: the default applies only when the variable is
unset, not when it is set to the empty string. -/
def getenvD (v : Option String) (d : String) : String :=
  match v with
  | some s => s
  | none => d

/-- Round a rational to the nearest integer, ties to even, as Python round
does on the exact value. -/
def roundHalfEven (q : ℚ) : ℤ :=
  let f := ⌊q⌋
  let r := q - (f : ℚ)
  if r < 1/2 then f
  else if (1/2 : ℚ) < r then f + 1
  else if f % 2 = 0 then f else f + 1

/-- Python round(x, 2) on the exact rational value. -/
def pyRound2 (q : ℚ) : ℚ := (roundHalfEven (q * 100) : ℚ) / 100

/-- Python str.strip() as applied to the generated content: remove leading
and trailing whitespace. -/
def pyStrip (s : String) : String :=
  String.mk (((s.data.dropWhile Char.isWhitespace).reverse.dropWhile Char.isWhitespace).reverse)

/-- The Groq prompt built for one recipient (the f-string at
email_sender.py lines 170-186 and email_sender_sendgrid.py lines 154-170,
with the surrounding indentation normalised). -/
def buildPrompt (request : EmailCampaignRequest) (r : EmailRecipient) : String :=
  "You are an expert advertising copywriter for " ++ request.company_name ++
  ".\nWrite a personalized, friendly, and persuasive marketing email for a campaign.\n\n" ++
  "Campaign Description:\n" ++ request.campaign_description ++ "\n\n" ++
  "Recipient Details:\nName: " ++ r.name ++
  "\nInterests and Preferences: " ++ r.personal_description ++ "\n\n" ++
  "Guidelines:\n- Keep it under 100 words.\n" ++
  "- Make it conversational and emotionally engaging.\n" ++
  "- Highlight how this offer or campaign benefits the recipient personally.\n" ++
  "- End with a warm closing from " ++ request.company_name ++ "."

/-- The resolved email subject: request.email_subject or the templated
default (email_sender.py line 202, email_sender_sendgrid.py line 185). -/
def resolvedSubject (request : EmailCampaignRequest) : String :=
  pyOrStr request.email_subject ("Special Offer from " ++ request.company_name ++ "!")

/-- The resolved sender display name: request.sender_name or
os.getenv(SENDER_NAME, company_name) (line 111 resp. line 100). -/
def resolvedSenderName (env : Env) (request : EmailCampaignRequest) : String :=
  pyOrStr request.sender_name (getenvD env.sender_name_env request.company_name)

/-- An outbound SMTP MIME message (email_sender.py lines 200-204). -/
structure MimeMessage where
  subject : String
  fromHeader : String
  toAddr : String
  body : String
deriving DecidableEq

/-- External actions attempted by the SMTP runner, in order. -/
inductive Event where
  | genAttempt (r : EmailRecipient) (prompt : String)
  | sendAttempt (r : EmailRecipient) (msg : MimeMessage)
deriving DecidableEq

/-- Oracles for the SMTP runner: Groq client construction, the SMTP
connect/starttls/login phase, the per-prompt generation call, and the
per-message send call.  An error value is the exception text str(e). -/
structure SmtpWorld where
  groqInit : Except String Unit
  smtpConnect : Except String Unit
  gen : String → Except String String
  send : MimeMessage → Except String Unit

/-- The MIME message built for one recipient once content was generated
(email_sender.py lines 200-204). -/
def mimeMessageFor (request : EmailCampaignRequest) (sender_name sender_email : String)
    (r : EmailRecipient) (content : String) : MimeMessage :=
  { subject := resolvedSubject request
    fromHeader := sender_name ++ " <" ++ sender_email ++ ">"
    toAddr := r.email
    body := content }

/-- One iteration of the per-recipient loop of send_email_campaign
(email_sender.py lines 165-241): generate content, on success build and send
the message; every failure is caught and recorded as a failed
EmailDeliveryStatus.  Returns the recorded result and the trace of attempts. -/
def processRecipientSmtp (request : EmailCampaignRequest) (sender_name sender_email : String)
    (w : SmtpWorld) (r : EmailRecipient) : EmailDeliveryStatus × List Event :=
  let prompt := buildPrompt request r
  match w.gen prompt with
  | .error e =>
      ({ recipient_name := r.name, recipient_email := r.email, status := "failed",
         error_message := some ("❌ Groq API error: " ++ e), email_content := none },
       [.genAttempt r prompt])
  | .ok raw =>
      let email_content := pyStrip raw
      let msg := mimeMessageFor request sender_name sender_email r email_content
      match w.send msg with
      | .ok _ =>
          ({ recipient_name := r.name, recipient_email := r.email, status := "sent",
             error_message := none, email_content := some email_content },
           [.genAttempt r prompt, .sendAttempt r msg])
      | .error e =>
          ({ recipient_name := r.name, recipient_email := r.email, status := "failed",
             error_message := some ("❌ Failed to send via SMTP: " ++ e), email_content := none },
           [.genAttempt r prompt, .sendAttempt r msg])

/-- The per-recipient loop: results in input order, the successful and failed
counters, and the concatenated trace. -/
def runLoopSmtp (request : EmailCampaignRequest) (sender_name sender_email : String)
    (w : SmtpWorld) : List EmailRecipient → List EmailDeliveryStatus × Nat × Nat × List Event
  | [] => ([], 0, 0, [])
  | r :: rs =>
      let out := processRecipientSmtp request sender_name sender_email w r
      let rest := runLoopSmtp request sender_name sender_email w rs
      (out.1 :: rest.1,
       (if out.1.status = "sent" then rest.2.1 + 1 else rest.2.1),
       (if out.1.status = "sent" then rest.2.2.1 else rest.2.2.1 + 1),
       out.2 ++ rest.2.2.2)

/-- The response returned when the recipient list is empty
(email_sender.py lines 88-105 and email_sender_sendgrid.py lines 77-94). -/
def emptyCampaignResponse (request : EmailCampaignRequest) : EmailCampaignResponse :=
  { campaign_summary :=
      { company_name := request.company_name
        campaign_description := request.campaign_description
        total_recipients := 0
        successful_sends := 0
        failed_sends := 0
        success_rate := 0
        sender_name := pyOrStr request.sender_name request.company_name
        sender_email := "N/A"
        warning := some "No recipients provided"
        email_provider := none }
    delivery_results := []
    execution_status := "failed" }

/-- The execution_status computation shared by both runners
(email_sender.py lines 248-254, email_sender_sendgrid.py lines 237-243). -/
def computeExecutionStatus (successful_sends total : Nat) : String :=
  if successful_sends = total then "success"
  else if successful_sends > 0 then "partial_success"
  else "failed"

/-- The ValueError text for missing SMTP credentials (email_sender.py line 120). -/
def smtpMissingSenderMsg : String :=
  "❌ Missing SENDER_EMAIL or SENDER_PASSWORD in environment variables. Please set these to send emails."

/-- The ValueError text for a missing Groq key (email_sender.py line 125). -/
def smtpMissingGroqMsg : String :=
  "❌ Missing GROQ_API_KEY in environment variables. Please set this to generate email content."

/-- The response built by send_email_campaign after the per-recipient loop
(email_sender.py lines 248-274). -/
def smtpSuccessResponse (env : Env) (w : SmtpWorld) (request : EmailCampaignRequest) :
    EmailCampaignResponse :=
  let sender_email := getenvD env.sender_email ""
  let sender_name := resolvedSenderName env request
  let out := runLoopSmtp request sender_name sender_email w request.recipients
  let n := request.recipients.length
  let s := out.2.1
  let f := out.2.2.1
  { campaign_summary :=
      { company_name := request.company_name
        campaign_description := request.campaign_description
        total_recipients := n
        successful_sends := s
        failed_sends := f
        success_rate := pyRound2 ((s : ℚ) / (n : ℚ) * 100)
        sender_name := sender_name
        sender_email := sender_email
        warning := none
        email_provider := none }
    delivery_results := out.1
    execution_status := computeExecutionStatus s n }

/-- The full trace of the per-recipient SMTP loop. -/
def smtpLoopTrace (env : Env) (w : SmtpWorld) (request : EmailCampaignRequest) : List Event :=
  (runLoopSmtp request (resolvedSenderName env request) (getenvD env.sender_email "") w
    request.recipients).2.2.2

/-- send_email_campaign (email_sender.py lines 61-277).  Returns the normal
result or the raised exception, together with the trace of external
per-recipient attempts. -/
def send_email_campaign (env : Env) (w : SmtpWorld) (request : EmailCampaignRequest) :
    Except CampaignException EmailCampaignResponse × List Event :=
  if request.recipients.isEmpty then
    (.ok (emptyCampaignResponse request), [])
  else if !truthyOpt env.sender_email || !truthyOpt env.sender_password then
    (.error (.valueError smtpMissingSenderMsg), [])
  else if !truthyOpt env.groq_api_key then
    (.error (.valueError smtpMissingGroqMsg), [])
  else
    match w.groqInit with
    | .error e => (.error (.valueError ("❌ Failed to initialize Groq client: " ++ e)), [])
    | .ok _ =>
      match w.smtpConnect with
      | .error e => (.error (.exception ("SMTP connection error: " ++ e)), [])
      | .ok _ => (.ok (smtpSuccessResponse env w request), smtpLoopTrace env w request)

/-- An outbound SendGrid message (email_sender_sendgrid.py lines 187-192). -/
structure SgMessage where
  from_email : String
  from_name : String
  to_email : String
  to_name : String
  subject : String
  body : String
deriving DecidableEq

/-- External actions attempted by the SendGrid runner, in order. -/
inductive SgEvent where
  | genAttempt (r : EmailRecipient) (prompt : String)
  | sendAttempt (r : EmailRecipient) (msg : SgMessage)
deriving DecidableEq

/-- Oracles for the SendGrid runner: Groq client construction, SendGrid
client construction, the per-prompt generation call, and the per-message API
call which normally yields an HTTP status code but may also raise. -/
structure SgWorld where
  groqInit : Except String Unit
  sgInit : Except String Unit
  gen : String → Except String String
  sgSend : SgMessage → Except String Nat

/-- The SendGrid message built for one recipient once content was generated
(email_sender_sendgrid.py lines 185-192). -/
def sgMessageFor (request : EmailCampaignRequest) (sender_name sender_email : String)
    (r : EmailRecipient) (content : String) : SgMessage :=
  { from_email := sender_email
    from_name := sender_name
    to_email := r.email
    to_name := r.name
    subject := resolvedSubject request
    body := content }

/-- One iteration of the per-recipient loop of send_email_campaign_sendgrid
(email_sender_sendgrid.py lines 149-235): generate content, send via the
API, classify by status code; a status outside 200/201/202 is raised and
recorded as a failure, as is any raised send error. -/
def processRecipientSg (request : EmailCampaignRequest) (sender_name sender_email : String)
    (w : SgWorld) (r : EmailRecipient) : EmailDeliveryStatus × List SgEvent :=
  let prompt := buildPrompt request r
  match w.gen prompt with
  | .error e =>
      ({ recipient_name := r.name, recipient_email := r.email, status := "failed",
         error_message := some ("❌ Groq API error: " ++ e), email_content := none },
       [.genAttempt r prompt])
  | .ok raw =>
      let email_content := pyStrip raw
      let msg := sgMessageFor request sender_name sender_email r email_content
      match w.sgSend msg with
      | .ok code =>
          if code = 200 ∨ code = 201 ∨ code = 202 then
            ({ recipient_name := r.name, recipient_email := r.email, status := "sent",
               error_message := none, email_content := some email_content },
             [.genAttempt r prompt, .sendAttempt r msg])
          else
            ({ recipient_name := r.name, recipient_email := r.email, status := "failed",
               error_message := some ("❌ Failed to send via SendGrid: SendGrid API returned status " ++ toString code),
               email_content := none },
             [.genAttempt r prompt, .sendAttempt r msg])
      | .error e =>
          ({ recipient_name := r.name, recipient_email := r.email, status := "failed",
             error_message := some ("❌ Failed to send via SendGrid: " ++ e), email_content := none },
           [.genAttempt r prompt, .sendAttempt r msg])

/-- The per-recipient SendGrid loop: results in input order, the counters,
and the concatenated trace. -/
def runLoopSg (request : EmailCampaignRequest) (sender_name sender_email : String)
    (w : SgWorld) : List EmailRecipient → List EmailDeliveryStatus × Nat × Nat × List SgEvent
  | [] => ([], 0, 0, [])
  | r :: rs =>
      let out := processRecipientSg request sender_name sender_email w r
      let rest := runLoopSg request sender_name sender_email w rs
      (out.1 :: rest.1,
       (if out.1.status = "sent" then rest.2.1 + 1 else rest.2.1),
       (if out.1.status = "sent" then rest.2.2.1 else rest.2.2.1 + 1),
       out.2 ++ rest.2.2.2)

/-- The ValueError text for a missing SendGrid key (email_sender_sendgrid.py
lines 109-110). -/
def sgMissingKeyMsg : String :=
  "❌ Missing SENDGRID_API_KEY in environment variables.\n   Get your API key from: https://app.sendgrid.com/settings/api_keys"

/-- The ValueError text for a missing sender address
(email_sender_sendgrid.py line 115). -/
def sgMissingSenderMsg : String := "❌ Missing SENDER_EMAIL in environment variables."

/-- The ValueError text for a missing Groq key (email_sender_sendgrid.py
line 120). -/
def sgMissingGroqMsg : String := "❌ Missing GROQ_API_KEY in environment variables."

/-- The response built by send_email_campaign_sendgrid after the loop
(email_sender_sendgrid.py lines 237-264). -/
def sgSuccessResponse (env : Env) (w : SgWorld) (request : EmailCampaignRequest) :
    EmailCampaignResponse :=
  let sender_email := getenvD env.sender_email ""
  let sender_name := resolvedSenderName env request
  let out := runLoopSg request sender_name sender_email w request.recipients
  let n := request.recipients.length
  let s := out.2.1
  let f := out.2.2.1
  { campaign_summary :=
      { company_name := request.company_name
        campaign_description := request.campaign_description
        total_recipients := n
        successful_sends := s
        failed_sends := f
        success_rate := pyRound2 ((s : ℚ) / (n : ℚ) * 100)
        sender_name := sender_name
        sender_email := sender_email
        warning := none
        email_provider := some "SendGrid API" }
    delivery_results := out.1
    execution_status := computeExecutionStatus s n }

/-- The full trace of the per-recipient SendGrid loop. -/
def sgLoopTrace (env : Env) (w : SgWorld) (request : EmailCampaignRequest) : List SgEvent :=
  (runLoopSg request (resolvedSenderName env request) (getenvD env.sender_email "") w
    request.recipients).2.2.2

/-- send_email_campaign_sendgrid (email_sender_sendgrid.py lines 59-267). -/
def send_email_campaign_sendgrid (env : Env) (w : SgWorld) (request : EmailCampaignRequest) :
    Except CampaignException EmailCampaignResponse × List SgEvent :=
  if request.recipients.isEmpty then
    (.ok (emptyCampaignResponse request), [])
  else if !truthyOpt env.sendgrid_api_key then
    (.error (.valueError sgMissingKeyMsg), [])
  else if !truthyOpt env.sender_email then
    (.error (.valueError sgMissingSenderMsg), [])
  else if !truthyOpt env.groq_api_key then
    (.error (.valueError sgMissingGroqMsg), [])
  else
    match w.groqInit with
    | .error e => (.error (.valueError ("❌ Failed to initialize Groq client: " ++ e)), [])
    | .ok _ =>
      match w.sgInit with
      | .error e => (.error (.valueError ("❌ Failed to initialize SendGrid client: " ++ e)), [])
      | .ok _ => (.ok (sgSuccessResponse env w request), sgLoopTrace env w request)

/-- The one-recipient campaign request built by send_single_email
(email_sender.py lines 305-319). -/
def singleRequest
    (company_name campaign_description recipient_name recipient_email personal_description : String)
    (sender_name email_subject : Option String) : EmailCampaignRequest :=
  let recipient : EmailRecipient :=
    { name := recipient_name, email := recipient_email,
      personal_description := personal_description }
  { company_name := company_name, campaign_description := campaign_description,
    recipients := [recipient], sender_name := sender_name, email_subject := email_subject }

/-- send_single_email (email_sender.py lines 279-325): build a one-recipient
campaign request, run the campaign, return delivery_results[0] when the list
is non-empty and None otherwise. -/
def send_single_email (env : Env) (w : SmtpWorld)
    (company_name campaign_description recipient_name recipient_email personal_description : String)
    (sender_name email_subject : Option String) :
    Except CampaignException (Option EmailDeliveryStatus) :=
  match (send_email_campaign env w (singleRequest company_name campaign_description
      recipient_name recipient_email personal_description sender_name email_subject)).1 with
  | .ok res => .ok res.delivery_results.head?
  | .error e => .error e

/-- Recognise a delivery attempt in an SMTP trace. -/
def isSendEvent : Event → Bool
  | .sendAttempt _ _ => true
  | .genAttempt _ _ => false

/-- Recognise a delivery attempt in a SendGrid trace. -/
def isSendEventSg : SgEvent → Bool
  | .sendAttempt _ _ => true
  | .genAttempt _ _ => false

/-- Number of delivery attempts in an SMTP trace. -/
def sendEventCount (tr : List Event) : Nat := (tr.filter isSendEvent).length

/-- Number of delivery attempts in a SendGrid trace. -/
def sendEventCountSg (tr : List SgEvent) : Nat := (tr.filter isSendEventSg).length

lemma processRecipientSmtp_spec (request : EmailCampaignRequest) (sn se : String)
    (w : SmtpWorld) (r : EmailRecipient) :
    (processRecipientSmtp request sn se w r).1.recipient_name = r.name ∧
    (processRecipientSmtp request sn se w r).1.recipient_email = r.email ∧
    ((processRecipientSmtp request sn se w r).1.status = "sent" ∨
      (processRecipientSmtp request sn se w r).1.status = "failed") ∧
    ((processRecipientSmtp request sn se w r).1.email_content.isSome ↔
      (processRecipientSmtp request sn se w r).1.status = "sent") ∧
    ((processRecipientSmtp request sn se w r).1.error_message.isSome ↔
      (processRecipientSmtp request sn se w r).1.status = "failed") ∧
    sendEventCount (processRecipientSmtp request sn se w r).2 ≤ 1 := by
  unfold processRecipientSmtp
  cases hg : w.gen (buildPrompt request r) with
  | error e => simp [hg, sendEventCount, isSendEvent]
  | ok raw =>
    cases hs : w.send (mimeMessageFor request sn se r (pyStrip raw)) with
    | ok u => simp [hg, hs, sendEventCount, isSendEvent]
    | error e => simp [hg, hs, sendEventCount, isSendEvent]

lemma processRecipientSg_spec (request : EmailCampaignRequest) (sn se : String)
    (w : SgWorld) (r : EmailRecipient) :
    (processRecipientSg request sn se w r).1.recipient_name = r.name ∧
    (processRecipientSg request sn se w r).1.recipient_email = r.email ∧
    ((processRecipientSg request sn se w r).1.status = "sent" ∨
      (processRecipientSg request sn se w r).1.status = "failed") ∧
    ((processRecipientSg request sn se w r).1.email_content.isSome ↔
      (processRecipientSg request sn se w r).1.status = "sent") ∧
    ((processRecipientSg request sn se w r).1.error_message.isSome ↔
      (processRecipientSg request sn se w r).1.status = "failed") ∧
    sendEventCountSg (processRecipientSg request sn se w r).2 ≤ 1 := by
  unfold processRecipientSg
  cases hg : w.gen (buildPrompt request r) with
  | error e => simp [hg, sendEventCountSg, isSendEventSg]
  | ok raw =>
    cases hs : w.sgSend (sgMessageFor request sn se r (pyStrip raw)) with
    | ok code =>
      by_cases hc : code = 200 ∨ code = 201 ∨ code = 202 <;>
        simp [hg, hs, hc, sendEventCountSg, isSendEventSg]
    | error e => simp [hg, hs, sendEventCountSg, isSendEventSg]

lemma processRecipientSmtp_genError (request : EmailCampaignRequest) (sn se : String)
    (w : SmtpWorld) (r : EmailRecipient) (e : String)
    (hg : w.gen (buildPrompt request r) = .error e) :
    processRecipientSmtp request sn se w r =
      ({ recipient_name := r.name, recipient_email := r.email, status := "failed",
         error_message := some ("❌ Groq API error: " ++ e), email_content := none },
       [.genAttempt r (buildPrompt request r)]) := by
  unfold processRecipientSmtp
  simp [hg]

lemma processRecipientSg_genError (request : EmailCampaignRequest) (sn se : String)
    (w : SgWorld) (r : EmailRecipient) (e : String)
    (hg : w.gen (buildPrompt request r) = .error e) :
    processRecipientSg request sn se w r =
      ({ recipient_name := r.name, recipient_email := r.email, status := "failed",
         error_message := some ("❌ Groq API error: " ++ e), email_content := none },
       [.genAttempt r (buildPrompt request r)]) := by
  unfold processRecipientSg
  simp [hg]

lemma runLoopSmtp_results (request : EmailCampaignRequest) (sn se : String) (w : SmtpWorld)
    (rs : List EmailRecipient) :
    (runLoopSmtp request sn se w rs).1 =
      rs.map (fun r => (processRecipientSmtp request sn se w r).1) := by
  induction rs with
  | nil => rfl
  | cons r rs ih => simp [runLoopSmtp, ih]

lemma runLoopSmtp_counts (request : EmailCampaignRequest) (sn se : String) (w : SmtpWorld)
    (rs : List EmailRecipient) :
    (runLoopSmtp request sn se w rs).2.1 + (runLoopSmtp request sn se w rs).2.2.1 = rs.length := by
  induction rs with
  | nil => rfl
  | cons r rs ih =>
    simp only [runLoopSmtp, List.length_cons]
    by_cases hc : (processRecipientSmtp request sn se w r).1.status = "sent" <;>
      simp only [hc, if_pos, if_neg, if_true, if_false, reduceIte] <;> omega

lemma runLoopSmtp_trace (request : EmailCampaignRequest) (sn se : String) (w : SmtpWorld)
    (rs : List EmailRecipient) :
    (runLoopSmtp request sn se w rs).2.2.2 =
      (rs.map (fun r => (processRecipientSmtp request sn se w r).2)).flatten := by
  induction rs with
  | nil => rfl
  | cons r rs ih => simp [runLoopSmtp, ih]

lemma runLoopSg_results (request : EmailCampaignRequest) (sn se : String) (w : SgWorld)
    (rs : List EmailRecipient) :
    (runLoopSg request sn se w rs).1 =
      rs.map (fun r => (processRecipientSg request sn se w r).1) := by
  induction rs with
  | nil => rfl
  | cons r rs ih => simp [runLoopSg, ih]

lemma runLoopSg_counts (request : EmailCampaignRequest) (sn se : String) (w : SgWorld)
    (rs : List EmailRecipient) :
    (runLoopSg request sn se w rs).2.1 + (runLoopSg request sn se w rs).2.2.1 = rs.length := by
  induction rs with
  | nil => rfl
  | cons r rs ih =>
    simp only [runLoopSg, List.length_cons]
    by_cases hc : (processRecipientSg request sn se w r).1.status = "sent" <;>
      simp only [hc, if_pos, if_neg, if_true, if_false, reduceIte] <;> omega

lemma runLoopSg_trace (request : EmailCampaignRequest) (sn se : String) (w : SgWorld)
    (rs : List EmailRecipient) :
    (runLoopSg request sn se w rs).2.2.2 =
      (rs.map (fun r => (processRecipientSg request sn se w r).2)).flatten := by
  induction rs with
  | nil => rfl
  | cons r rs ih => simp [runLoopSg, ih]

lemma computeExecutionStatus_spec (s f n : Nat) (hsf : s + f = n) (hn : 0 < n) :
    (computeExecutionStatus s n = "success" ↔ f = 0 ∧ 0 < n) ∧
    (computeExecutionStatus s n = "partial_success" ↔ 0 < s ∧ s < n) ∧
    (computeExecutionStatus s n = "failed" ↔ ¬(f = 0 ∧ 0 < n) ∧ ¬(0 < s ∧ s < n)) := by
  unfold computeExecutionStatus
  by_cases h1 : s = n
  · simp only [h1, reduceIte]
    refine ⟨?_, ?_, ?_⟩ <;> simp <;> omega
  · by_cases h2 : s > 0 <;>
      simp only [h1, h2, reduceIte, if_true, if_false, gt_iff_lt] <;>
      refine ⟨?_, ?_, ?_⟩ <;> simp [h1, h2] <;> omega

lemma send_email_campaign_ok_cases (env : Env) (w : SmtpWorld) (request : EmailCampaignRequest)
    (res : EmailCampaignResponse) (tr : List Event)
    (h : send_email_campaign env w request = (.ok res, tr)) :
    (request.recipients = [] ∧ res = emptyCampaignResponse request ∧ tr = []) ∨
    (request.recipients ≠ [] ∧ res = smtpSuccessResponse env w request ∧
      tr = smtpLoopTrace env w request) := by
  unfold send_email_campaign at h
  split at h
  · rename_i hemp
    left
    simp only [Prod.mk.injEq, Except.ok.injEq] at h
    exact ⟨List.isEmpty_iff.mp hemp, h.1.symm, h.2.symm⟩
  · rename_i hemp
    have hne : request.recipients ≠ [] := fun hc => hemp (by simp [hc])
    split at h
    · simp at h
    · split at h
      · simp at h
      · split at h
        · simp at h
        · split at h
          · simp at h
          · right
            simp only [Prod.mk.injEq, Except.ok.injEq] at h
            exact ⟨hne, h.1.symm, h.2.symm⟩

lemma send_email_campaign_sendgrid_ok_cases (env : Env) (w : SgWorld)
    (request : EmailCampaignRequest) (res : EmailCampaignResponse) (tr : List SgEvent)
    (h : send_email_campaign_sendgrid env w request = (.ok res, tr)) :
    (request.recipients = [] ∧ res = emptyCampaignResponse request ∧ tr = []) ∨
    (request.recipients ≠ [] ∧ res = sgSuccessResponse env w request ∧
      tr = sgLoopTrace env w request) := by
  unfold send_email_campaign_sendgrid at h
  split at h
  · rename_i hemp
    left
    simp only [Prod.mk.injEq, Except.ok.injEq] at h
    exact ⟨List.isEmpty_iff.mp hemp, h.1.symm, h.2.symm⟩
  · rename_i hemp
    have hne : request.recipients ≠ [] := fun hc => hemp (by simp [hc])
    split at h
    · simp at h
    · split at h
      · simp at h
      · split at h
        · simp at h
        · split at h
          · simp at h
          · split at h
            · simp at h
            · right
              simp only [Prod.mk.injEq, Except.ok.injEq] at h
              exact ⟨hne, h.1.symm, h.2.symm⟩

lemma map_process_names_smtp (request : EmailCampaignRequest) (sn se : String) (w : SmtpWorld)
    (rs : List EmailRecipient) :
    (rs.map (fun r => (processRecipientSmtp request sn se w r).1)).map
      (fun d => (d.recipient_name, d.recipient_email)) =
    rs.map (fun r => (r.name, r.email)) := by
  induction rs with
  | nil => rfl
  | cons r rs ih =>
    simp only [List.map_cons, List.cons.injEq]
    refine ⟨?_, ih⟩
    rw [(processRecipientSmtp_spec request sn se w r).1,
      (processRecipientSmtp_spec request sn se w r).2.1]

lemma map_process_names_sg (request : EmailCampaignRequest) (sn se : String) (w : SgWorld)
    (rs : List EmailRecipient) :
    (rs.map (fun r => (processRecipientSg request sn se w r).1)).map
      (fun d => (d.recipient_name, d.recipient_email)) =
    rs.map (fun r => (r.name, r.email)) := by
  induction rs with
  | nil => rfl
  | cons r rs ih =>
    simp only [List.map_cons, List.cons.injEq]
    refine ⟨?_, ih⟩
    rw [(processRecipientSg_spec request sn se w r).1,
      (processRecipientSg_spec request sn se w r).2.1]

/-- A fully configured environment, used to exercise the runners. -/
def envFull : Env :=
  { sender_email := some "sender@acme.com", sender_password := some "secret-app-pass",
    groq_api_key := some "gk-123", sender_name_env := none, sendgrid_api_key := some "sg-123" }

/-- An environment with every variable unset. -/
def envMissing : Env :=
  { sender_email := none, sender_password := none, groq_api_key := none,
    sender_name_env := none, sendgrid_api_key := none }

/-- An SMTP world in which every external call succeeds. -/
def wOkSmtp : SmtpWorld :=
  { groqInit := .ok (), smtpConnect := .ok (),
    gen := fun _ => .ok "Hello from Acme", send := fun _ => .ok () }

/-- A SendGrid world in which every external call succeeds with status 202. -/
def wOkSg : SgWorld :=
  { groqInit := .ok (), sgInit := .ok (),
    gen := fun _ => .ok "Hello from Acme", sgSend := fun _ => .ok 202 }

/-- A sample recipient. -/
def aliceR : EmailRecipient :=
  { name := "Alice", email := "alice@example.com", personal_description := "likes AI" }

/-- Another sample recipient. -/
def bobR : EmailRecipient :=
  { name := "Bob", email := "bob@example.com", personal_description := "likes chess" }

/-- A two-recipient campaign request. -/
def reqTwo : EmailCampaignRequest :=
  { company_name := "Acme", campaign_description := "Launch", recipients := [aliceR, bobR],
    sender_name := none, email_subject := none }

/-- A campaign request with no recipients. -/
def reqEmpty : EmailCampaignRequest :=
  { company_name := "Acme", campaign_description := "Launch", recipients := [],
    sender_name := none, email_subject := none }

/-- Claim C1: whenever send_email_campaign or send_email_campaign_sendgrid
returns normally on a non-empty recipient list, delivery_results carries
exactly one entry per recipient, in input order, with the recipient's name
and email, and successful_sends plus failed_sends equals total_recipients
equals the number of recipients. -/
theorem claim_C1_delivery_results_align :
    (∀ (env : Env) (w : SmtpWorld) (request : EmailCampaignRequest)
        (res : EmailCampaignResponse) (tr : List Event),
      request.recipients ≠ [] →
      send_email_campaign env w request = (.ok res, tr) →
      res.delivery_results.map (fun d => (d.recipient_name, d.recipient_email)) =
        request.recipients.map (fun r => (r.name, r.email)) ∧
      res.campaign_summary.successful_sends + res.campaign_summary.failed_sends =
        res.campaign_summary.total_recipients ∧
      res.campaign_summary.total_recipients = request.recipients.length) ∧
    (∀ (env : Env) (w : SgWorld) (request : EmailCampaignRequest)
        (res : EmailCampaignResponse) (tr : List SgEvent),
      request.recipients ≠ [] →
      send_email_campaign_sendgrid env w request = (.ok res, tr) →
      res.delivery_results.map (fun d => (d.recipient_name, d.recipient_email)) =
        request.recipients.map (fun r => (r.name, r.email)) ∧
      res.campaign_summary.successful_sends + res.campaign_summary.failed_sends =
        res.campaign_summary.total_recipients ∧
      res.campaign_summary.total_recipients = request.recipients.length) := by
  constructor
  · intro env w request res tr hne h
    rcases send_email_campaign_ok_cases env w request res tr h with
      ⟨hemp, _, _⟩ | ⟨_, hres, _⟩
    · exact absurd hemp hne
    · subst hres
      refine ⟨?_, ?_, rfl⟩
      · rw [show (smtpSuccessResponse env w request).delivery_results =
            (runLoopSmtp request (resolvedSenderName env request) (getenvD env.sender_email "") w
              request.recipients).1 from rfl,
          runLoopSmtp_results]
        exact map_process_names_smtp ..
      · exact runLoopSmtp_counts ..
  · intro env w request res tr hne h
    rcases send_email_campaign_sendgrid_ok_cases env w request res tr h with
      ⟨hemp, _, _⟩ | ⟨_, hres, _⟩
    · exact absurd hemp hne
    · subst hres
      refine ⟨?_, ?_, rfl⟩
      · rw [show (sgSuccessResponse env w request).delivery_results =
            (runLoopSg request (resolvedSenderName env request) (getenvD env.sender_email "") w
              request.recipients).1 from rfl,
          runLoopSg_results]
        exact map_process_names_sg ..
      · exact runLoopSg_counts ..

/-- Concrete instantiation of claim C1 on a two-recipient campaign in which
every external call succeeds. -/
theorem claim_C1_witness :
    ∃ res tr, send_email_campaign envFull wOkSmtp reqTwo = (.ok res, tr) ∧
      (res.delivery_results.map (fun d => (d.recipient_name, d.recipient_email)) =
        reqTwo.recipients.map (fun r => (r.name, r.email)) ∧
      res.campaign_summary.successful_sends + res.campaign_summary.failed_sends =
        res.campaign_summary.total_recipients ∧
      res.campaign_summary.total_recipients = reqTwo.recipients.length) := by
  obtain ⟨res, tr, h⟩ : ∃ res tr, send_email_campaign envFull wOkSmtp reqTwo = (.ok res, tr) :=
    ⟨_, _, rfl⟩
  exact ⟨res, tr, h,
    claim_C1_delivery_results_align.1 envFull wOkSmtp reqTwo res tr (by decide) h⟩

lemma smtpSuccessResponse_status_iff (env : Env) (w : SmtpWorld)
    (request : EmailCampaignRequest) (hne : request.recipients ≠ []) :
    ((smtpSuccessResponse env w request).execution_status = "success" ↔
      (smtpSuccessResponse env w request).campaign_summary.failed_sends = 0 ∧
        0 < (smtpSuccessResponse env w request).campaign_summary.total_recipients) ∧
    ((smtpSuccessResponse env w request).execution_status = "partial_success" ↔
      0 < (smtpSuccessResponse env w request).campaign_summary.successful_sends ∧
        (smtpSuccessResponse env w request).campaign_summary.successful_sends <
          (smtpSuccessResponse env w request).campaign_summary.total_recipients) ∧
    ((smtpSuccessResponse env w request).execution_status = "failed" ↔
      ¬((smtpSuccessResponse env w request).campaign_summary.failed_sends = 0 ∧
          0 < (smtpSuccessResponse env w request).campaign_summary.total_recipients) ∧
      ¬(0 < (smtpSuccessResponse env w request).campaign_summary.successful_sends ∧
          (smtpSuccessResponse env w request).campaign_summary.successful_sends <
            (smtpSuccessResponse env w request).campaign_summary.total_recipients)) := by
  have hc := runLoopSmtp_counts request (resolvedSenderName env request)
    (getenvD env.sender_email "") w request.recipients
  have hn : 0 < request.recipients.length := List.length_pos.mpr hne
  exact computeExecutionStatus_spec _ _ _ hc hn

lemma sgSuccessResponse_status_iff (env : Env) (w : SgWorld)
    (request : EmailCampaignRequest) (hne : request.recipients ≠ []) :
    ((sgSuccessResponse env w request).execution_status = "success" ↔
      (sgSuccessResponse env w request).campaign_summary.failed_sends = 0 ∧
        0 < (sgSuccessResponse env w request).campaign_summary.total_recipients) ∧
    ((sgSuccessResponse env w request).execution_status = "partial_success" ↔
      0 < (sgSuccessResponse env w request).campaign_summary.successful_sends ∧
        (sgSuccessResponse env w request).campaign_summary.successful_sends <
          (sgSuccessResponse env w request).campaign_summary.total_recipients) ∧
    ((sgSuccessResponse env w request).execution_status = "failed" ↔
      ¬((sgSuccessResponse env w request).campaign_summary.failed_sends = 0 ∧
          0 < (sgSuccessResponse env w request).campaign_summary.total_recipients) ∧
      ¬(0 < (sgSuccessResponse env w request).campaign_summary.successful_sends ∧
          (sgSuccessResponse env w request).campaign_summary.successful_sends <
            (sgSuccessResponse env w request).campaign_summary.total_recipients)) := by
  have hc := runLoopSg_counts request (resolvedSenderName env request)
    (getenvD env.sender_email "") w request.recipients
  have hn : 0 < request.recipients.length := List.length_pos.mpr hne
  exact computeExecutionStatus_spec _ _ _ hc hn

/-- Claim C2: for every report returned normally by either runner,
execution_status is success iff failed_sends is zero and there was at least
one recipient, partial_success iff strictly between zero and all sends
succeeded, and failed otherwise, the zero-recipient report included. -/
theorem claim_C2_execution_status :
    (∀ (env : Env) (w : SmtpWorld) (request : EmailCampaignRequest)
        (res : EmailCampaignResponse) (tr : List Event),
      send_email_campaign env w request = (.ok res, tr) →
      (res.execution_status = "success" ↔
        res.campaign_summary.failed_sends = 0 ∧ 0 < res.campaign_summary.total_recipients) ∧
      (res.execution_status = "partial_success" ↔
        0 < res.campaign_summary.successful_sends ∧
          res.campaign_summary.successful_sends < res.campaign_summary.total_recipients) ∧
      (res.execution_status = "failed" ↔
        ¬(res.campaign_summary.failed_sends = 0 ∧ 0 < res.campaign_summary.total_recipients) ∧
        ¬(0 < res.campaign_summary.successful_sends ∧
            res.campaign_summary.successful_sends < res.campaign_summary.total_recipients))) ∧
    (∀ (env : Env) (w : SgWorld) (request : EmailCampaignRequest)
        (res : EmailCampaignResponse) (tr : List SgEvent),
      send_email_campaign_sendgrid env w request = (.ok res, tr) →
      (res.execution_status = "success" ↔
        res.campaign_summary.failed_sends = 0 ∧ 0 < res.campaign_summary.total_recipients) ∧
      (res.execution_status = "partial_success" ↔
        0 < res.campaign_summary.successful_sends ∧
          res.campaign_summary.successful_sends < res.campaign_summary.total_recipients) ∧
      (res.execution_status = "failed" ↔
        ¬(res.campaign_summary.failed_sends = 0 ∧ 0 < res.campaign_summary.total_recipients) ∧
        ¬(0 < res.campaign_summary.successful_sends ∧
            res.campaign_summary.successful_sends < res.campaign_summary.total_recipients))) := by
  constructor
  · intro env w request res tr h
    rcases send_email_campaign_ok_cases env w request res tr h with
      ⟨_, hres, _⟩ | ⟨hne, hres, _⟩
    · subst hres
      simp [emptyCampaignResponse]
    · subst hres
      exact smtpSuccessResponse_status_iff env w request hne
  · intro env w request res tr h
    rcases send_email_campaign_sendgrid_ok_cases env w request res tr h with
      ⟨_, hres, _⟩ | ⟨hne, hres, _⟩
    · subst hres
      simp [emptyCampaignResponse]
    · subst hres
      exact sgSuccessResponse_status_iff env w request hne

/-- Concrete instantiation of claim C2: an all-success two-recipient SMTP
campaign carries execution_status success, matching its zero failed_sends. -/
theorem claim_C2_witness :
    ∃ res tr, send_email_campaign envFull wOkSmtp reqTwo = (.ok res, tr) ∧
      (res.execution_status = "success" ↔
        res.campaign_summary.failed_sends = 0 ∧ 0 < res.campaign_summary.total_recipients) := by
  obtain ⟨res, tr, h⟩ : ∃ res tr, send_email_campaign envFull wOkSmtp reqTwo = (.ok res, tr) :=
    ⟨_, _, rfl⟩
  exact ⟨res, tr, h, (claim_C2_execution_status.1 envFull wOkSmtp reqTwo res tr h).1⟩

/-- Claim C3: an empty recipient list makes both runners return immediately,
with no generation or delivery attempt (empty trace), a report with all
counts zero, success_rate zero, no delivery results, and execution_status
failed. -/
theorem claim_C3_empty_recipients :
    ∀ (request : EmailCampaignRequest), request.recipients = [] →
      (∀ (env : Env) (w : SmtpWorld),
        send_email_campaign env w request = (.ok (emptyCampaignResponse request), [])) ∧
      (∀ (env : Env) (w : SgWorld),
        send_email_campaign_sendgrid env w request = (.ok (emptyCampaignResponse request), [])) ∧
      (emptyCampaignResponse request).campaign_summary.total_recipients = 0 ∧
      (emptyCampaignResponse request).campaign_summary.successful_sends = 0 ∧
      (emptyCampaignResponse request).campaign_summary.failed_sends = 0 ∧
      (emptyCampaignResponse request).campaign_summary.success_rate = 0 ∧
      (emptyCampaignResponse request).delivery_results = [] ∧
      (emptyCampaignResponse request).execution_status = "failed" := by
  intro request hemp
  refine ⟨?_, ?_, rfl, rfl, rfl, rfl, rfl, rfl⟩
  · intro env w
    unfold send_email_campaign
    simp [hemp]
  · intro env w
    unfold send_email_campaign_sendgrid
    simp [hemp]

/-- Concrete instantiation of claim C3 on the empty request. -/
theorem claim_C3_witness :
    send_email_campaign envMissing wOkSmtp reqEmpty =
      (.ok (emptyCampaignResponse reqEmpty), []) ∧
    (emptyCampaignResponse reqEmpty).execution_status = "failed" :=
  ⟨(claim_C3_empty_recipients reqEmpty rfl).1 envMissing wOkSmtp,
   (claim_C3_empty_recipients reqEmpty rfl).2.2.2.2.2.2.2⟩

/-- Claim C4 fails as stated: with every credential missing but an empty
recipient list, send_email_campaign returns a report normally instead of
raising a configuration error (the empty-list check precedes the credential
check). -/
theorem claim_C4_counterexample :
    truthyOpt envMissing.sender_email = false ∧
    truthyOpt envMissing.sender_password = false ∧
    truthyOpt envMissing.groq_api_key = false ∧
    truthyOpt envMissing.sendgrid_api_key = false ∧
    send_email_campaign envMissing wOkSmtp reqEmpty =
      (.ok (emptyCampaignResponse reqEmpty), []) ∧
    send_email_campaign_sendgrid envMissing wOkSg reqEmpty =
      (.ok (emptyCampaignResponse reqEmpty), []) := by
  refine ⟨rfl, rfl, rfl, rfl, ?_, ?_⟩ <;> rfl

/-- Claim C4 as amended: for every campaign request with a NON-EMPTY
recipient list run with a required credential missing, each runner returns a
ValueError naming the missing capability, with an empty trace (nothing
generated, no email attempted) and no delivery result or report. -/
theorem claim_C4_missing_credentials :
    (∀ (env : Env) (w : SmtpWorld) (request : EmailCampaignRequest),
      request.recipients ≠ [] →
      (truthyOpt env.sender_email = false ∨ truthyOpt env.sender_password = false ∨
        truthyOpt env.groq_api_key = false) →
      ∃ m, send_email_campaign env w request = (.error (.valueError m), []) ∧
        (m = smtpMissingSenderMsg ∨ m = smtpMissingGroqMsg)) ∧
    (∀ (env : Env) (w : SgWorld) (request : EmailCampaignRequest),
      request.recipients ≠ [] →
      (truthyOpt env.sendgrid_api_key = false ∨ truthyOpt env.sender_email = false ∨
        truthyOpt env.groq_api_key = false) →
      ∃ m, send_email_campaign_sendgrid env w request = (.error (.valueError m), []) ∧
        (m = sgMissingKeyMsg ∨ m = sgMissingSenderMsg ∨ m = sgMissingGroqMsg)) := by
  constructor
  · intro env w request hne hmiss
    have hemp : request.recipients.isEmpty = false := by
      cases hr : request.recipients with
      | nil => exact absurd hr hne
      | cons a l => rfl
    by_cases h1 : (!truthyOpt env.sender_email || !truthyOpt env.sender_password) = true
    · refine ⟨smtpMissingSenderMsg, ?_, Or.inl rfl⟩
      unfold send_email_campaign
      simp [hemp, h1]
    · have h2 : truthyOpt env.groq_api_key = false := by
        rcases hmiss with h | h | h
        · exact absurd (by simp [h]) h1
        · exact absurd (by simp [h]) h1
        · exact h
      refine ⟨smtpMissingGroqMsg, ?_, Or.inr rfl⟩
      unfold send_email_campaign
      simp [hemp, h1, h2]
  · intro env w request hne hmiss
    have hemp : request.recipients.isEmpty = false := by
      cases hr : request.recipients with
      | nil => exact absurd hr hne
      | cons a l => rfl
    by_cases h1 : truthyOpt env.sendgrid_api_key = false
    · refine ⟨sgMissingKeyMsg, ?_, Or.inl rfl⟩
      unfold send_email_campaign_sendgrid
      simp [hemp, h1]
    · by_cases h2 : truthyOpt env.sender_email = false
      · refine ⟨sgMissingSenderMsg, ?_, Or.inr (Or.inl rfl)⟩
        unfold send_email_campaign_sendgrid
        simp [hemp, h1, h2]
      · have h3 : truthyOpt env.groq_api_key = false := by
          rcases hmiss with h | h | h
          · exact absurd h h1
          · exact absurd h h2
          · exact h
        refine ⟨sgMissingGroqMsg, ?_, Or.inr (Or.inr rfl)⟩
        unfold send_email_campaign_sendgrid
        simp [hemp, h1, h2, h3]

/-- Concrete instantiation of the amended claim C4: a two-recipient request
in an empty environment yields the SMTP credentials ValueError and an empty
trace. -/
theorem claim_C4_witness :
    ∃ m, send_email_campaign envMissing wOkSmtp reqTwo = (.error (.valueError m), []) ∧
      (m = smtpMissingSenderMsg ∨ m = smtpMissingGroqMsg) :=
  claim_C4_missing_credentials.1 envMissing wOkSmtp reqTwo (by decide) (Or.inl rfl)

/-- The outcome (result record and attempt trace) that send_email_campaign
produces for one recipient, as a function of that recipient alone. -/
def smtpRecipientOutcome (env : Env) (w : SmtpWorld) (request : EmailCampaignRequest)
    (r : EmailRecipient) : EmailDeliveryStatus × List Event :=
  processRecipientSmtp request (resolvedSenderName env request) (getenvD env.sender_email "") w r

/-- The outcome that send_email_campaign_sendgrid produces for one
recipient, as a function of that recipient alone. -/
def sgRecipientOutcome (env : Env) (w : SgWorld) (request : EmailCampaignRequest)
    (r : EmailRecipient) : EmailDeliveryStatus × List SgEvent :=
  processRecipientSg request (resolvedSenderName env request) (getenvD env.sender_email "") w r

/-- Claim C5: in every normal run, the delivery results are exactly the
per-recipient outcomes in input order (so each recipient's entry depends on
that recipient alone and no recipient is skipped because of another's
failure), the trace is the concatenation of the per-recipient traces, each
recipient's trace holds at most one delivery attempt, and a generator
failure yields a failed entry carrying the error text with no delivery
attempt at all for that recipient. -/
theorem claim_C5_per_recipient_isolation :
    (∀ (env : Env) (w : SmtpWorld) (request : EmailCampaignRequest)
        (res : EmailCampaignResponse) (tr : List Event),
      send_email_campaign env w request = (.ok res, tr) →
      res.delivery_results = request.recipients.map (fun r => (smtpRecipientOutcome env w request r).1) ∧
      tr = (request.recipients.map (fun r => (smtpRecipientOutcome env w request r).2)).flatten ∧
      ∀ r : EmailRecipient,
        sendEventCount (smtpRecipientOutcome env w request r).2 ≤ 1 ∧
        ∀ e, w.gen (buildPrompt request r) = .error e →
          (smtpRecipientOutcome env w request r).1.status = "failed" ∧
          (smtpRecipientOutcome env w request r).1.error_message =
            some ("❌ Groq API error: " ++ e) ∧
          sendEventCount (smtpRecipientOutcome env w request r).2 = 0) ∧
    (∀ (env : Env) (w : SgWorld) (request : EmailCampaignRequest)
        (res : EmailCampaignResponse) (tr : List SgEvent),
      send_email_campaign_sendgrid env w request = (.ok res, tr) →
      res.delivery_results = request.recipients.map (fun r => (sgRecipientOutcome env w request r).1) ∧
      tr = (request.recipients.map (fun r => (sgRecipientOutcome env w request r).2)).flatten ∧
      ∀ r : EmailRecipient,
        sendEventCountSg (sgRecipientOutcome env w request r).2 ≤ 1 ∧
        ∀ e, w.gen (buildPrompt request r) = .error e →
          (sgRecipientOutcome env w request r).1.status = "failed" ∧
          (sgRecipientOutcome env w request r).1.error_message =
            some ("❌ Groq API error: " ++ e) ∧
          sendEventCountSg (sgRecipientOutcome env w request r).2 = 0) := by
  constructor
  · intro env w request res tr h
    have hperR : ∀ r : EmailRecipient,
        sendEventCount (smtpRecipientOutcome env w request r).2 ≤ 1 ∧
        ∀ e, w.gen (buildPrompt request r) = .error e →
          (smtpRecipientOutcome env w request r).1.status = "failed" ∧
          (smtpRecipientOutcome env w request r).1.error_message =
            some ("❌ Groq API error: " ++ e) ∧
          sendEventCount (smtpRecipientOutcome env w request r).2 = 0 := by
      intro r
      refine ⟨(processRecipientSmtp_spec ..).2.2.2.2.2, ?_⟩
      intro e hg
      unfold smtpRecipientOutcome
      rw [processRecipientSmtp_genError _ _ _ _ _ _ hg]
      exact ⟨rfl, rfl, rfl⟩
    rcases send_email_campaign_ok_cases env w request res tr h with
      ⟨hemp, hres, htr⟩ | ⟨_, hres, htr⟩
    · subst hres; subst htr
      refine ⟨?_, ?_, hperR⟩ <;> simp [emptyCampaignResponse, hemp]
    · subst hres; subst htr
      refine ⟨?_, ?_, hperR⟩
      · exact runLoopSmtp_results ..
      · exact runLoopSmtp_trace ..
  · intro env w request res tr h
    have hperR : ∀ r : EmailRecipient,
        sendEventCountSg (sgRecipientOutcome env w request r).2 ≤ 1 ∧
        ∀ e, w.gen (buildPrompt request r) = .error e →
          (sgRecipientOutcome env w request r).1.status = "failed" ∧
          (sgRecipientOutcome env w request r).1.error_message =
            some ("❌ Groq API error: " ++ e) ∧
          sendEventCountSg (sgRecipientOutcome env w request r).2 = 0 := by
      intro r
      refine ⟨(processRecipientSg_spec ..).2.2.2.2.2, ?_⟩
      intro e hg
      unfold sgRecipientOutcome
      rw [processRecipientSg_genError _ _ _ _ _ _ hg]
      exact ⟨rfl, rfl, rfl⟩
    rcases send_email_campaign_sendgrid_ok_cases env w request res tr h with
      ⟨hemp, hres, htr⟩ | ⟨_, hres, htr⟩
    · subst hres; subst htr
      refine ⟨?_, ?_, hperR⟩ <;> simp [emptyCampaignResponse, hemp]
    · subst hres; subst htr
      refine ⟨?_, ?_, hperR⟩
      · exact runLoopSg_results ..
      · exact runLoopSg_trace ..

/-- An SMTP world in which generation fails for the first sample recipient
only. -/
def wGenFailAlice : SmtpWorld :=
  { groqInit := .ok (), smtpConnect := .ok (),
    gen := fun p => if p = buildPrompt reqTwo aliceR then .error "boom" else .ok "Hello",
    send := fun _ => .ok () }

set_option maxRecDepth 8192 in
/-- Concrete instantiation of claim C5: a two-recipient SMTP campaign where
generation fails for the first recipient records a failed result for that
recipient and still processes the second. -/
theorem claim_C5_witness :
    ∃ res tr, send_email_campaign envFull wGenFailAlice reqTwo = (.ok res, tr) ∧
      res.delivery_results =
        reqTwo.recipients.map (fun r => (smtpRecipientOutcome envFull wGenFailAlice reqTwo r).1) ∧
      res.delivery_results.map EmailDeliveryStatus.status = ["failed", "sent"] := by
  obtain ⟨res, tr, h⟩ :
      ∃ res tr, send_email_campaign envFull wGenFailAlice reqTwo = (.ok res, tr) :=
    ⟨_, _, rfl⟩
  refine ⟨res, tr, h, (claim_C5_per_recipient_isolation.1 envFull wGenFailAlice reqTwo res tr h).1, ?_⟩
  rw [(claim_C5_per_recipient_isolation.1 envFull wGenFailAlice reqTwo res tr h).1]
  decide

/-- Claim C6: in every returned report, a delivery entry has email_content
present exactly when its status is sent and error_message present exactly
when its status is failed; in particular a failed entry stores no content. -/
theorem claim_C6_result_field_invariant :
    (∀ (env : Env) (w : SmtpWorld) (request : EmailCampaignRequest)
        (res : EmailCampaignResponse) (tr : List Event),
      send_email_campaign env w request = (.ok res, tr) →
      ∀ d ∈ res.delivery_results,
        (d.email_content.isSome ↔ d.status = "sent") ∧
        (d.error_message.isSome ↔ d.status = "failed") ∧
        (d.status = "failed" → d.email_content = none)) ∧
    (∀ (env : Env) (w : SgWorld) (request : EmailCampaignRequest)
        (res : EmailCampaignResponse) (tr : List SgEvent),
      send_email_campaign_sendgrid env w request = (.ok res, tr) →
      ∀ d ∈ res.delivery_results,
        (d.email_content.isSome ↔ d.status = "sent") ∧
        (d.error_message.isSome ↔ d.status = "failed") ∧
        (d.status = "failed" → d.email_content = none)) := by
  constructor
  · intro env w request res tr h d hd
    rcases send_email_campaign_ok_cases env w request res tr h with
      ⟨_, hres, _⟩ | ⟨_, hres, _⟩
    · subst hres
      simp [emptyCampaignResponse] at hd
    · subst hres
      rw [show (smtpSuccessResponse env w request).delivery_results =
          (runLoopSmtp request (resolvedSenderName env request) (getenvD env.sender_email "") w
            request.recipients).1 from rfl, runLoopSmtp_results] at hd
      rcases List.mem_map.mp hd with ⟨r, _, hdr⟩
      subst hdr
      have hspec := processRecipientSmtp_spec request (resolvedSenderName env request)
        (getenvD env.sender_email "") w r
      refine ⟨hspec.2.2.2.1, hspec.2.2.2.2.1, fun hfail => ?_⟩
      refine Option.not_isSome_iff_eq_none.mp (fun hs => ?_)
      have hsent := hspec.2.2.2.1.mp hs
      rw [hfail] at hsent
      exact absurd hsent (by decide)
  · intro env w request res tr h d hd
    rcases send_email_campaign_sendgrid_ok_cases env w request res tr h with
      ⟨_, hres, _⟩ | ⟨_, hres, _⟩
    · subst hres
      simp [emptyCampaignResponse] at hd
    · subst hres
      rw [show (sgSuccessResponse env w request).delivery_results =
          (runLoopSg request (resolvedSenderName env request) (getenvD env.sender_email "") w
            request.recipients).1 from rfl, runLoopSg_results] at hd
      rcases List.mem_map.mp hd with ⟨r, _, hdr⟩
      subst hdr
      have hspec := processRecipientSg_spec request (resolvedSenderName env request)
        (getenvD env.sender_email "") w r
      refine ⟨hspec.2.2.2.1, hspec.2.2.2.2.1, fun hfail => ?_⟩
      refine Option.not_isSome_iff_eq_none.mp (fun hs => ?_)
      have hsent := hspec.2.2.2.1.mp hs
      rw [hfail] at hsent
      exact absurd hsent (by decide)

/-- Concrete instantiation of claim C6 on the mixed-outcome campaign. -/
theorem claim_C6_witness :
    ∃ res tr, send_email_campaign envFull wGenFailAlice reqTwo = (.ok res, tr) ∧
      ∀ d ∈ res.delivery_results,
        (d.email_content.isSome ↔ d.status = "sent") ∧
        (d.error_message.isSome ↔ d.status = "failed") ∧
        (d.status = "failed" → d.email_content = none) := by
  obtain ⟨res, tr, h⟩ :
      ∃ res tr, send_email_campaign envFull wGenFailAlice reqTwo = (.ok res, tr) :=
    ⟨_, _, rfl⟩
  exact ⟨res, tr, h, claim_C6_result_field_invariant.1 envFull wGenFailAlice reqTwo res tr h⟩

/-- Claim C7: in every normal non-empty run of either runner, success_rate
equals successful_sends over total_recipients times one hundred, rounded to
two decimal places; two out of three gives 66.67 and three out of three
gives 100. -/
theorem claim_C7_success_rate :
    (∀ (env : Env) (w : SmtpWorld) (request : EmailCampaignRequest)
        (res : EmailCampaignResponse) (tr : List Event),
      request.recipients ≠ [] →
      send_email_campaign env w request = (.ok res, tr) →
      res.campaign_summary.success_rate =
        pyRound2 ((res.campaign_summary.successful_sends : ℚ) /
          (res.campaign_summary.total_recipients : ℚ) * 100)) ∧
    (∀ (env : Env) (w : SgWorld) (request : EmailCampaignRequest)
        (res : EmailCampaignResponse) (tr : List SgEvent),
      request.recipients ≠ [] →
      send_email_campaign_sendgrid env w request = (.ok res, tr) →
      res.campaign_summary.success_rate =
        pyRound2 ((res.campaign_summary.successful_sends : ℚ) /
          (res.campaign_summary.total_recipients : ℚ) * 100)) ∧
    pyRound2 ((2 : ℚ) / 3 * 100) = 6667 / 100 ∧
    pyRound2 ((3 : ℚ) / 3 * 100) = 100 := by
  have hA : pyRound2 ((2 : ℚ) / 3 * 100) = 6667 / 100 := by
    have h1 : (2 : ℚ) / 3 * 100 * 100 = ((20000 : ℕ) : ℚ) / ((3 : ℕ) : ℚ) := by norm_num
    have h2 : ⌊(((20000 : ℕ) : ℚ) / ((3 : ℕ) : ℚ))⌋ = 6666 := by
      rw [Rat.floor_natCast_div_natCast]
      norm_num
    unfold pyRound2 roundHalfEven
    rw [h1, h2]
    rw [if_neg (by push_cast; norm_num), if_pos (by push_cast; norm_num)]
    norm_num
  have hB : pyRound2 ((3 : ℚ) / 3 * 100) = 100 := by
    have h1 : (3 : ℚ) / 3 * 100 * 100 = ((10000 : ℤ) : ℚ) := by norm_num
    unfold pyRound2 roundHalfEven
    rw [h1, Int.floor_intCast]
    rw [if_pos (by norm_num)]
    norm_num
  refine ⟨?_, ?_, hA, hB⟩
  · intro env w request res tr hne h
    rcases send_email_campaign_ok_cases env w request res tr h with
      ⟨hemp, _, _⟩ | ⟨_, hres, _⟩
    · exact absurd hemp hne
    · subst hres
      rfl
  · intro env w request res tr hne h
    rcases send_email_campaign_sendgrid_ok_cases env w request res tr h with
      ⟨hemp, _, _⟩ | ⟨_, hres, _⟩
    · exact absurd hemp hne
    · subst hres
      rfl

set_option maxRecDepth 16384 in
/-- Concrete instantiation of claim C7: the mixed-outcome two-recipient
campaign reports a 50.0 success rate. -/
theorem claim_C7_witness :
    ∃ res tr, send_email_campaign envFull wGenFailAlice reqTwo = (.ok res, tr) ∧
      res.campaign_summary.success_rate =
        pyRound2 ((res.campaign_summary.successful_sends : ℚ) /
          (res.campaign_summary.total_recipients : ℚ) * 100) ∧
      res.campaign_summary.success_rate = 50 := by
  refine ⟨smtpSuccessResponse envFull wGenFailAlice reqTwo,
    smtpLoopTrace envFull wGenFailAlice reqTwo, rfl,
    claim_C7_success_rate.1 envFull wGenFailAlice reqTwo _ _ (by decide) rfl, ?_⟩
  show pyRound2 (((1 : ℕ) : ℚ) / ((2 : ℕ) : ℚ) * 100) = 50
  have h1 : ((1 : ℕ) : ℚ) / ((2 : ℕ) : ℚ) * 100 * 100 = ((5000 : ℤ) : ℚ) := by
    push_cast
    norm_num
  unfold pyRound2 roundHalfEven
  rw [h1, Int.floor_intCast]
  rw [if_pos (by norm_num)]
  norm_num

/-- A SendGrid world whose API call always returns HTTP status 204. -/
def w204Sg : SgWorld :=
  { groqInit := .ok (), sgInit := .ok (),
    gen := fun _ => .ok "Hello from Acme", sgSend := fun _ => .ok 204 }

/-- A one-recipient campaign request. -/
def reqOne : EmailCampaignRequest :=
  { company_name := "Acme", campaign_description := "Launch", recipients := [aliceR],
    sender_name := none, email_subject := none }

set_option maxRecDepth 16384 in
/-- Claim C8 fails as stated: HTTP 204 is a 2xx status, yet the SendGrid
runner records the send as failed, because the code accepts only the
literal status codes 200, 201 and 202. -/
theorem claim_C8_counterexample :
    (200 ≤ 204 ∧ 204 < 300) ∧
    ∃ res tr, send_email_campaign_sendgrid envFull w204Sg reqOne = (.ok res, tr) ∧
      res.delivery_results.map EmailDeliveryStatus.status = ["failed"] := by
  refine ⟨⟨by norm_num, by norm_num⟩,
    sgSuccessResponse envFull w204Sg reqOne, sgLoopTrace envFull w204Sg reqOne, rfl, ?_⟩
  decide

/-- Claim C8 as amended: in the SendGrid path a per-recipient send whose API
call returns status code c is recorded as sent iff c is one of 200, 201 and
202; any other returned status is recorded as that recipient's failed
DeliveryResult carrying the status text. -/
theorem claim_C8_status_code (request : EmailCampaignRequest) (sn se : String)
    (w : SgWorld) (r : EmailRecipient) (raw : String) (code : Nat)
    (hg : w.gen (buildPrompt request r) = .ok raw)
    (hs : w.sgSend (sgMessageFor request sn se r (pyStrip raw)) = .ok code) :
    ((processRecipientSg request sn se w r).1.status = "sent" ↔
      (code = 200 ∨ code = 201 ∨ code = 202)) ∧
    (¬(code = 200 ∨ code = 201 ∨ code = 202) →
      (processRecipientSg request sn se w r).1.status = "failed" ∧
      (processRecipientSg request sn se w r).1.error_message =
        some ("❌ Failed to send via SendGrid: SendGrid API returned status " ++
          toString code)) := by
  by_cases hc : code = 200 ∨ code = 201 ∨ code = 202
  · simp [processRecipientSg, hg, hs, hc]
  · simp [processRecipientSg, hg, hs, hc]

/-- Concrete instantiation of the amended claim C8: status 202 is recorded
as sent. -/
theorem claim_C8_witness :
    ((processRecipientSg reqOne "Acme" "sender@acme.com" wOkSg aliceR).1.status = "sent" ↔
      ((202 : ℕ) = 200 ∨ (202 : ℕ) = 201 ∨ (202 : ℕ) = 202)) ∧
    (¬((202 : ℕ) = 200 ∨ (202 : ℕ) = 201 ∨ (202 : ℕ) = 202) →
      (processRecipientSg reqOne "Acme" "sender@acme.com" wOkSg aliceR).1.status = "failed" ∧
      (processRecipientSg reqOne "Acme" "sender@acme.com" wOkSg aliceR).1.error_message =
        some ("❌ Failed to send via SendGrid: SendGrid API returned status " ++
          toString (202 : ℕ))) :=
  claim_C8_status_code reqOne "Acme" "sender@acme.com" wOkSg aliceR "Hello from Acme" 202 rfl rfl

lemma processRecipientSmtp_sendAttempt_msg (request : EmailCampaignRequest) (sn se : String)
    (w : SmtpWorld) (r r2 : EmailRecipient) (msg : MimeMessage)
    (hmem : Event.sendAttempt r2 msg ∈ (processRecipientSmtp request sn se w r).2) :
    msg.subject = resolvedSubject request ∧
    msg.fromHeader = sn ++ " <" ++ se ++ ">" := by
  unfold processRecipientSmtp at hmem
  cases hg : w.gen (buildPrompt request r) with
  | error e => simp [hg] at hmem
  | ok raw =>
    cases hs : w.send (mimeMessageFor request sn se r (pyStrip raw)) with
    | ok u =>
      simp [hg, hs] at hmem
      rcases hmem with ⟨h1, h2⟩
      subst h2
      exact ⟨rfl, rfl⟩
    | error e =>
      simp [hg, hs] at hmem
      rcases hmem with ⟨h1, h2⟩
      subst h2
      exact ⟨rfl, rfl⟩

/-- A request that explicitly passes empty strings for subject and sender. -/
def reqEmptyStrings : EmailCampaignRequest :=
  { company_name := "Acme", campaign_description := "Launch", recipients := [aliceR],
    sender_name := some "", email_subject := some "" }

set_option maxRecDepth 16384 in
/-- Claim C9 fails as stated: a request that explicitly provides the empty
string as email_subject and sender_name is delivered with the templated
default subject and the company name as display name, not the provided
values, because Python `or` treats the empty string as absent. -/
theorem claim_C9_counterexample :
    reqEmptyStrings.email_subject = some "" ∧
    reqEmptyStrings.sender_name = some "" ∧
    send_email_campaign envFull wOkSmtp reqEmptyStrings =
      (.ok (smtpSuccessResponse envFull wOkSmtp reqEmptyStrings),
       [Event.genAttempt aliceR (buildPrompt reqEmptyStrings aliceR),
        Event.sendAttempt aliceR
          { subject := "Special Offer from Acme!",
            fromHeader := "Acme <sender@acme.com>",
            toAddr := "alice@example.com",
            body := "Hello from Acme" }]) := by
  refine ⟨rfl, rfl, ?_⟩
  have h2 : smtpLoopTrace envFull wOkSmtp reqEmptyStrings =
      [Event.genAttempt aliceR (buildPrompt reqEmptyStrings aliceR),
       Event.sendAttempt aliceR
         { subject := "Special Offer from Acme!",
           fromHeader := "Acme <sender@acme.com>",
           toAddr := "alice@example.com",
           body := "Hello from Acme" }] := by decide
  rw [← h2]
  exact rfl

/-- Claim C9 as amended: the resolved subject equals the request's explicit
email_subject when provided and non-empty, otherwise the templated default;
the resolved sender display name equals the explicit sender_name when
provided and non-empty, else the environment default when that variable is
set, else the company name; and every delivery attempt of a normal SMTP run
carries exactly these resolved values. -/
theorem claim_C9_subject_sender :
    (∀ (request : EmailCampaignRequest) (s : String),
      request.email_subject = some s → s ≠ "" → resolvedSubject request = s) ∧
    (∀ request : EmailCampaignRequest,
      request.email_subject = none ∨ request.email_subject = some "" →
      resolvedSubject request = "Special Offer from " ++ request.company_name ++ "!") ∧
    (∀ (env : Env) (request : EmailCampaignRequest) (s : String),
      request.sender_name = some s → s ≠ "" → resolvedSenderName env request = s) ∧
    (∀ (env : Env) (request : EmailCampaignRequest),
      request.sender_name = none ∨ request.sender_name = some "" →
      ∀ d, env.sender_name_env = some d → resolvedSenderName env request = d) ∧
    (∀ (env : Env) (request : EmailCampaignRequest),
      request.sender_name = none ∨ request.sender_name = some "" →
      env.sender_name_env = none →
      resolvedSenderName env request = request.company_name) ∧
    (∀ (env : Env) (w : SmtpWorld) (request : EmailCampaignRequest)
        (res : EmailCampaignResponse) (tr : List Event),
      send_email_campaign env w request = (.ok res, tr) →
      ∀ (r : EmailRecipient) (msg : MimeMessage), Event.sendAttempt r msg ∈ tr →
        msg.subject = resolvedSubject request ∧
        msg.fromHeader = resolvedSenderName env request ++ " <" ++
          getenvD env.sender_email "" ++ ">") := by
  refine ⟨?_, ?_, ?_, ?_, ?_, ?_⟩
  · intro request s hs hne
    unfold resolvedSubject pyOrStr
    rw [hs]
    simp [String.isEmpty_iff, hne]
  · intro request hsub
    unfold resolvedSubject pyOrStr
    rcases hsub with h | h
    · rw [h]
    · rw [h]
      rfl
  · intro env request s hs hne
    unfold resolvedSenderName pyOrStr
    rw [hs]
    simp [String.isEmpty_iff, hne]
  · intro env request hsn d hd
    unfold resolvedSenderName pyOrStr getenvD
    rcases hsn with h | h
    · rw [h, hd]
    · rw [h, hd]
      rfl
  · intro env request hsn hd
    unfold resolvedSenderName pyOrStr getenvD
    rcases hsn with h | h
    · rw [h, hd]
    · rw [h, hd]
      rfl
  · intro env w request res tr h r msg hmem
    rcases send_email_campaign_ok_cases env w request res tr h with
      ⟨_, _, htr⟩ | ⟨_, _, htr⟩
    · subst htr
      simp at hmem
    · subst htr
      unfold smtpLoopTrace at hmem
      rw [runLoopSmtp_trace, List.mem_flatten] at hmem
      rcases hmem with ⟨l, hl, hml⟩
      rcases List.mem_map.mp hl with ⟨r0, _, hlr⟩
      subst hlr
      exact processRecipientSmtp_sendAttempt_msg request _ _ w r0 r msg hml

/-- A request with explicit non-empty subject and sender name. -/
def reqSubject : EmailCampaignRequest :=
  { company_name := "Acme", campaign_description := "Launch", recipients := [aliceR],
    sender_name := some "Sales Team", email_subject := some "Hi there" }

/-- Concrete instantiation of the amended claim C9: explicit non-empty
subject and sender name are used as given. -/
theorem claim_C9_witness :
    resolvedSubject reqSubject = "Hi there" ∧
    resolvedSenderName envFull reqSubject = "Sales Team" :=
  ⟨claim_C9_subject_sender.1 reqSubject "Hi there" rfl (by decide),
   claim_C9_subject_sender.2.2.1 envFull reqSubject "Sales Team" rfl (by decide)⟩

lemma smtpSuccessResponse_head (env : Env) (w : SmtpWorld) (request : EmailCampaignRequest)
    (r : EmailRecipient) (hr : request.recipients = [r]) :
    (smtpSuccessResponse env w request).delivery_results.head? =
      some (processRecipientSmtp request (resolvedSenderName env request)
        (getenvD env.sender_email "") w r).1 := by
  have hres : (smtpSuccessResponse env w request).delivery_results =
      request.recipients.map (fun x => (processRecipientSmtp request
        (resolvedSenderName env request) (getenvD env.sender_email "") w x).1) :=
    runLoopSmtp_results ..
  rw [hres, hr]
  rfl

/-- Claim C10: whenever the one-recipient campaign run underlying
send_single_email returns normally, the function returns a delivery status
(not None) whose recipient_name and recipient_email equal the arguments it
was called with. -/
theorem claim_C10_send_single_email (env : Env) (w : SmtpWorld)
    (company_name campaign_description recipient_name recipient_email
      personal_description : String)
    (sender_name email_subject : Option String) (o : Option EmailDeliveryStatus)
    (h : send_single_email env w company_name campaign_description recipient_name
      recipient_email personal_description sender_name email_subject = .ok o) :
    ∃ d, o = some d ∧ d.recipient_name = recipient_name ∧
      d.recipient_email = recipient_email := by
  unfold send_single_email at h
  rcases hrun : send_email_campaign env w (singleRequest company_name campaign_description
      recipient_name recipient_email personal_description sender_name email_subject)
    with ⟨er, ctr⟩
  rw [hrun] at h
  cases er with
  | error e => simp at h
  | ok res =>
    simp only [Except.ok.injEq] at h
    subst h
    rcases send_email_campaign_ok_cases env w _ res ctr hrun with
      ⟨hemp, _, _⟩ | ⟨_, hres, _⟩
    · simp [singleRequest] at hemp
    · subst hres
      rw [smtpSuccessResponse_head env w _
        ⟨recipient_name, recipient_email, personal_description⟩ rfl]
      refine ⟨_, rfl, ?_, ?_⟩
      · exact (processRecipientSmtp_spec ..).1
      · exact (processRecipientSmtp_spec ..).2.1

/-- Concrete instantiation of claim C10. -/
theorem claim_C10_witness :
    ∃ o, send_single_email envFull wOkSmtp "Acme" "Launch" "Alice" "alice@example.com"
        "likes AI" none none = .ok o ∧
      ∃ d, o = some d ∧ d.recipient_name = "Alice" ∧ d.recipient_email = "alice@example.com" := by
  obtain ⟨o, h⟩ : ∃ o, send_single_email envFull wOkSmtp "Acme" "Launch" "Alice"
      "alice@example.com" "likes AI" none none = .ok o := ⟨_, rfl⟩
  exact ⟨o, h, claim_C10_send_single_email envFull wOkSmtp "Acme" "Launch" "Alice"
    "alice@example.com" "likes AI" none none o h⟩
